import Mathlib

/-!
Verification of the contribution aggregation and ranking engine of the
github-stats-cards repository.  The Lean definitions below are a shallow
embedding of the Python sources:

* `src/exceptions.py`          — exception taxonomy (`PyErr`)
* `src/github/rank.py`         — `exponential_cdf`, `log_normal_cdf`,
                                 `calculate_user_rank`, `calculate_repo_rank`
* `src/core/utils.py`          — `is_repo_excluded` (with a model of Python's
                                 `fnmatch` glob matching)
* `src/github/client.py`       — `GitHubClient.graphql_query`
* `src/github/fetcher.py`      — `fetch_contributor_stats` and its inner
                                 `process_list` merge step

Python floats are modelled as real numbers, Python ints as `Int` (or `Nat`
for values that are non-negative by construction), and raised exceptions as
`Except` values.  The network is modelled by passing the transport outcome
of each request as an explicit argument.
-/

/- ===================== src/exceptions.py ===================== -/

/-- Exceptions that can cross the fetcher boundary.  `requestException` is
`requests.exceptions.RequestException`; `apiError` and `fetchError` embed
`APIError` and its subtype `FetchError` from `src/exceptions.py` (re-exported
as `src.core.exceptions`).  `notFoundError` is modelled from the spec: §7
names a `NotFoundError` in the error taxonomy, but no such exception exists
anywhere in the source. -/
inductive PyErr where
  | requestException (msg : String)
  | apiError (msg : String)
  | fetchError (msg : String)
  | notFoundError (msg : String)
deriving DecidableEq, Repr

/-- `isinstance(e, requests.exceptions.RequestException)`. -/
def PyErr.isRequestException : PyErr → Bool
  | .requestException _ => true
  | _ => false

/-- `isinstance(e, FetchError)`: only the `FetchError` leaf itself. -/
def PyErr.isFetchError : PyErr → Bool
  | .fetchError _ => true
  | _ => false

/-- `isinstance(e, APIError)`: `FetchError` is a subtype of `APIError`. -/
def PyErr.isAPIError : PyErr → Bool
  | .apiError _ => true
  | .fetchError _ => true
  | _ => false

/-- `isinstance(e, NotFoundError)` for the spec-modelled taxonomy entry. -/
def PyErr.isNotFoundError : PyErr → Bool
  | .notFoundError _ => true
  | _ => false

/-- `str(e)`: the message carried by the exception. -/
def PyErr.msg : PyErr → String
  | .requestException m => m
  | .apiError m => m
  | .fetchError m => m
  | .notFoundError m => m

/- ===================== src/github/rank.py ===================== -/

/-- Result of user rank calculation (`RankResult` TypedDict). -/
structure RankResult where
  level : String
  percentile : ℝ

/-- `exponential_cdf(x) = 1 - 2**-x` from rank.py. -/
noncomputable def exponential_cdf (x : ℝ) : ℝ := 1 - 2 ^ (-x)

/-- `log_normal_cdf(x) = x / (1 + x)` from rank.py. -/
noncomputable def log_normal_cdf (x : ℝ) : ℝ := x / (1 + x)

/-- The weighted CDF combination inside `calculate_user_rank`
(`Σ weight_i * cdf_i` before division by the total weight). -/
noncomputable def user_rank_score (commits prs issues reviews stars followers : ℕ)
    (all_commits : Bool) : ℝ :=
  let COMMITS_MEDIAN : ℝ := if all_commits then 1000 else 250
  let COMMITS_WEIGHT : ℝ := 2
  let PRS_MEDIAN : ℝ := 50
  let PRS_WEIGHT : ℝ := 3
  let ISSUES_MEDIAN : ℝ := 25
  let ISSUES_WEIGHT : ℝ := 1
  let REVIEWS_MEDIAN : ℝ := 2
  let REVIEWS_WEIGHT : ℝ := 1
  let STARS_MEDIAN : ℝ := 50
  let STARS_WEIGHT : ℝ := 4
  let FOLLOWERS_MEDIAN : ℝ := 10
  let FOLLOWERS_WEIGHT : ℝ := 1
  COMMITS_WEIGHT * exponential_cdf (commits / COMMITS_MEDIAN)
    + PRS_WEIGHT * exponential_cdf (prs / PRS_MEDIAN)
    + ISSUES_WEIGHT * exponential_cdf (issues / ISSUES_MEDIAN)
    + REVIEWS_WEIGHT * exponential_cdf (reviews / REVIEWS_MEDIAN)
    + STARS_WEIGHT * log_normal_cdf (stars / STARS_MEDIAN)
    + FOLLOWERS_WEIGHT * log_normal_cdf (followers / FOLLOWERS_MEDIAN)

/-- The level-lookup loop of `calculate_user_rank`: scan the
(threshold, level) pairs in order and return the first level whose
threshold the percentile is `≤`; default `"C"`. -/
noncomputable def find_level : List (ℝ × String) → ℝ → String
  | [], _ => "C"
  | (t, l) :: rest, p => if p ≤ t then l else find_level rest p

/-- `THRESHOLDS` zipped with `LEVELS` from `calculate_user_rank`. -/
def RANK_LEVELS : List (ℝ × String) :=
  [(1, "S"), (12.5, "A+"), (25, "A"), (37.5, "A-"), (50, "B+"),
   (62.5, "B"), (75, "B-"), (87.5, "C+"), (100, "C")]

/-- `calculate_user_rank` from rank.py.  `TOTAL_WEIGHT = 2+3+1+1+4+1 = 12`. -/
noncomputable def calculate_user_rank (commits prs issues reviews stars followers : ℕ)
    (all_commits : Bool) : RankResult :=
  let TOTAL_WEIGHT : ℝ := 12
  let rank : ℝ :=
    1 - user_rank_score commits prs issues reviews stars followers all_commits / TOTAL_WEIGHT
  let percentile : ℝ := rank * 100
  { level := find_level RANK_LEVELS percentile, percentile := percentile }

/-- `calculate_repo_rank` from rank.py. -/
def calculate_repo_rank (stars total_repo_commits : Int) : String :=
  let base_rank : String :=
    if stars > 10000 then "S"
    else if stars > 1000 then "A"
    else if stars > 100 then "B"
    else if stars > 10 then "C"
    else "D"
  let modifier : String :=
    if total_repo_commits > 5000 then "+"
    else if 0 < total_repo_commits ∧ total_repo_commits < 100 then "-"
    else ""
  base_rank ++ modifier

/- ===================== src/core/utils.py ===================== -/

/-- Python `str.lower()` restricted to the ASCII case mapping, over the
character list of a string. -/
def lowerL (cs : List Char) : List Char := cs.map Char.toLower

/-- Python `str.lower()` restricted to the ASCII case mapping. -/
def lowerStr (s : String) : String := String.mk (lowerL s.data)

/-- Python `str.split(sep)`: split on every occurrence of the separator,
keeping empty segments. -/
def splitChar (sep : Char) : List Char → List (List Char)
  | [] => [[]]
  | c :: rest =>
    let r := splitChar sep rest
    if c = sep then [] :: r
    else
      match r with
      | [] => [[c]]
      | s :: ss => (c :: s) :: ss

/-- One token of a shell glob pattern as understood by Python's
`fnmatch.translate`: `*`, `?`, a literal character, or a bracketed
character set with optional `!` negation. -/
inductive GlobTok where
  | star
  | qmark
  | lit (c : Char)
  | cset (neg : Bool) (cs : List Char)
deriving DecidableEq, Repr

/-- Scan forward to the closing `]` of a bracket set, returning the chars of
the set and the remainder of the pattern; `none` when the set is
unterminated (fnmatch then treats the `[` as a literal). -/
def takeCset (acc : List Char) : List Char → Option (List Char × List Char)
  | [] => none
  | c :: rest => if c = ']' then some (acc.reverse, rest) else takeCset (c :: acc) rest

/-- Parse the inside of a `[...]` set as fnmatch does: a leading `!` negates;
a `]` immediately after `[` or `[!` belongs to the set. -/
def parseCset (cs : List Char) : Option (Bool × List Char × List Char) :=
  match cs with
  | '!' :: (']' :: rest) => (takeCset [']'] rest).map (fun p => (true, p.1, p.2))
  | '!' :: rest => (takeCset [] rest).map (fun p => (true, p.1, p.2))
  | ']' :: rest => (takeCset [']'] rest).map (fun p => (false, p.1, p.2))
  | rest => (takeCset [] rest).map (fun p => (false, p.1, p.2))

/-- Membership of a character in a bracket set, honouring `a-z` ranges; a
trailing `-` is a literal, as in fnmatch's regex translation. -/
def csetMatch : List Char → Char → Bool
  | [], _ => false
  | a :: '-' :: b :: rest, c => (decide (a ≤ c ∧ c ≤ b)) || csetMatch rest c
  | a :: rest, c => (a = c) || csetMatch rest c

/-- Tokenize a glob pattern.  The fuel argument (always instantiated with
the pattern length, which bounds the recursion) makes the bracket-set
jumps structurally terminating. -/
def globTokenize : Nat → List Char → List GlobTok
  | _, [] => []
  | 0, _ => []
  | fuel + 1, c :: rest =>
    if c = '*' then .star :: globTokenize fuel rest
    else if c = '?' then .qmark :: globTokenize fuel rest
    else if c = '[' then
      match parseCset rest with
      | some (neg, cs, rest2) => .cset neg cs :: globTokenize fuel rest2
      | none => .lit '[' :: globTokenize fuel rest
    else .lit c :: globTokenize fuel rest

/-- Glob matching over tokenized patterns: the semantics of
`fnmatch.fnmatch` on the lower-cased inputs the source hands it.  Every
recursive call shrinks the combined length of pattern and subject, so the
structural fuel argument (instantiated with that combined length) never
runs out. -/
def globMatch : Nat → List GlobTok → List Char → Bool
  | _, [], [] => true
  | _, [], _ :: _ => false
  | 0, _ :: _, _ => false
  | fuel + 1, .star :: ps, [] => globMatch fuel ps []
  | fuel + 1, .star :: ps, c :: cs =>
    globMatch fuel ps (c :: cs) || globMatch fuel (.star :: ps) cs
  | fuel + 1, .qmark :: ps, _ :: cs => globMatch fuel ps cs
  | _, .qmark :: _, [] => false
  | fuel + 1, .lit p :: ps, c :: cs => (p = c) && globMatch fuel ps cs
  | _, .lit _ :: _, [] => false
  | fuel + 1, .cset neg cs :: ps, c :: rest => (csetMatch cs c != neg) && globMatch fuel ps rest
  | _, .cset _ _ :: _, [] => false

/-- `fnmatch.fnmatch(name, pat)` over character lists (the source
lower-cases both arguments itself before calling, and POSIX `normcase` is
the identity). -/
def fnmatchL (name pat : List Char) : Bool :=
  let toks := globTokenize pat.length pat
  globMatch (toks.length + name.length) toks name

/-- `fnmatch.fnmatch(name, pat)` on strings. -/
def fnmatch (name pat : String) : Bool := fnmatchL name.data pat.data

/-- `repo_name.split("/")[-1] if "/" in repo_name else repo_name`. -/
def lastSegment (rn : List Char) : List Char :=
  if rn.contains '/' then (splitChar '/' rn).getLastD rn else rn

/-- The `for pattern in exclude_patterns` loop body of `is_repo_excluded`:
returns at the first matching pattern. -/
def exclude_loop (repo_name repo_name_only : List Char) : List String → Bool
  | [] => false
  | pattern :: rest =>
    let pat := lowerL pattern.data
    if pat.contains '/' then
      if fnmatchL repo_name pat then true
      else exclude_loop repo_name repo_name_only rest
    else
      if fnmatchL repo_name_only pat then true
      else exclude_loop repo_name repo_name_only rest

/-- `is_repo_excluded` from core/utils.py. -/
def is_repo_excluded (repo_name : String) (exclude_patterns : List String) : Bool :=
  let rn := lowerL repo_name.data
  let repo_name_only := lastSegment rn
  exclude_loop rn repo_name_only exclude_patterns

/-- The per-pattern test of `is_repo_excluded`, for stating the
any-pattern-matches characterization. -/
def pattern_matches (repo_name : String) (pattern : String) : Bool :=
  let rn := lowerL repo_name.data
  let repo_name_only := lastSegment rn
  let pat := lowerL pattern.data
  if pat.contains '/' then fnmatchL rn pat else fnmatchL repo_name_only pat

/-- Decidable equality on `Except`, for evaluating the embedded fetcher on
concrete inputs. -/
instance {ε α : Type} [DecidableEq ε] [DecidableEq α] : DecidableEq (Except ε α) :=
  fun a b =>
    match a, b with
    | .error e, .error e' =>
      if h : e = e' then .isTrue (by rw [h]) else .isFalse (by simp [h])
    | .error _, .ok _ => .isFalse (by simp)
    | .ok _, .error _ => .isFalse (by simp)
    | .ok v, .ok v' =>
      if h : v = v' then .isTrue (by rw [h]) else .isFalse (by simp [h])

/- ===================== src/github/client.py ===================== -/

/-- `GitHubClient.graphql_query`: performs the POST and returns the parsed
JSON payload, wrapping any `requests.exceptions.RequestException` into
`APIError("GitHub API request failed: ...")`.  The transport outcome is the
argument: `.error m` is a raised `RequestException` with message `m`,
`.ok p` a successful response with payload `p`. -/
def graphql_query {α : Type} (transport : Except String α) : Except PyErr α :=
  match transport with
  | .error m => .error (.apiError ("GitHub API request failed: " ++ m))
  | .ok p => .ok p

/- ===================== src/github/fetcher.py ===================== -/

/-- The payload of the `userYears` query, restricted to the shapes
`fetch_contributor_stats` distinguishes: a GraphQL `errors` field, a
missing/null `data.user`, or the list of contribution years. -/
inductive YearsPayload where
  | errors (msg : String)
  | noUser
  | years (ys : List Int)
deriving DecidableEq, Repr

/-- The `repository` object of one contribution-kind entry.  `history` is
`repository.object.history.totalCount` when `object` resolved to a commit
with history, else `none`. -/
structure RepoNode where
  nameWithOwner : String
  isPrivate : Bool
  ownerLogin : String
  avatarUrl : String
  stars : Int
  history : Option Int
deriving DecidableEq, Repr

/-- One entry of a `...ContributionsByRepository` list:
a repository plus `contributions.totalCount`. -/
structure ContribItem where
  repository : RepoNode
  count : Int
deriving DecidableEq, Repr

/-- The `contributionsCollection` of one per-year query. -/
structure Collection where
  commitContributionsByRepository : List ContribItem
  pullRequestContributionsByRepository : List ContribItem
  issueContributionsByRepository : List ContribItem
  pullRequestReviewContributionsByRepository : List ContribItem
deriving DecidableEq, Repr

/-- The payload of one per-year `userContribs` query, restricted to the
shapes the loop body distinguishes. -/
inductive ContribPayload where
  | errors (msg : String)
  | noUser
  | noCollection
  | ok (c : Collection)
deriving DecidableEq, Repr

/-- One value of `raw_repos_map`: the accumulator record for a repository. -/
structure RawRepo where
  name : String
  stars : Int
  avatar_url : String
  commits : Int
  prs : Int
  issues : Int
  reviews : Int
  total_repo_commits : Int
deriving DecidableEq, Repr

/-- Which of the four counters a `process_list` call accumulates into
(the `contrib_type` string argument). -/
inductive ContribType where
  | commits
  | prs
  | issues
  | reviews
deriving DecidableEq, Repr

/-- `raw_repos_map` keyed by `name`, kept in insertion order as a Python
dict is: `name in raw_repos_map` / `raw_repos_map[name]`. -/
def lookupRepo : List RawRepo → String → Option RawRepo
  | [], _ => none
  | r :: t, n => if r.name = n then some r else lookupRepo t n

/-- In-place update of the record stored under key `n` (keys are unique, so
updating every entry with that name models the dict update). -/
def updateRepo : List RawRepo → String → (RawRepo → RawRepo) → List RawRepo
  | [], _, _ => []
  | r :: t, n, f => if r.name = n then f r :: updateRepo t n f else r :: updateRepo t n f

/-- The `raw_repos_map[name][contrib_type] += count` statement. -/
def bump (ct : ContribType) (k : Int) (r : RawRepo) : RawRepo :=
  match ct with
  | .commits => { r with commits := r.commits + k }
  | .prs => { r with prs := r.prs + k }
  | .issues => { r with issues := r.issues + k }
  | .reviews => { r with reviews := r.reviews + k }

/-- `total_repo_commits` seeding on first sighting: the commit-history
total if the entry's payload carries one, else 0. -/
def historyOr0 (repo : RepoNode) : Int :=
  match repo.history with
  | some h => h
  | none => 0

/-- The fresh record `process_list` creates when the key is new: star count
and avatar from this entry, all four counters 0, `total_repo_commits`
seeded from this entry's payload. -/
def seedRepo (repo : RepoNode) : RawRepo :=
  { name := repo.nameWithOwner, stars := repo.stars, avatar_url := repo.avatarUrl,
    commits := 0, prs := 0, issues := 0, reviews := 0,
    total_repo_commits := historyOr0 repo }

/-- The else-branch of the merge: backfill `total_repo_commits` only while
it is still 0 and the entry's payload supplies a commit history. -/
def backfill_trc (repo : RepoNode) (r : RawRepo) : RawRepo :=
  if r.total_repo_commits = 0 then
    match repo.history with
    | some h => { r with total_repo_commits := h }
    | none => r
  else r

/-- The body of the `for item in items` loop of `process_list`: drop
zero-count, private and self-owned entries; otherwise create or update the
record and accumulate the entry's counter. -/
def process_item (username : String) (ct : ContribType) (acc : List RawRepo)
    (item : ContribItem) : List RawRepo :=
  let repo := item.repository
  let name := repo.nameWithOwner
  let count := item.count
  if count = 0 then acc
  else if repo.isPrivate then acc
  else if lowerStr repo.ownerLogin = lowerStr username then acc
  else
    let acc2 :=
      match lookupRepo acc name with
      | none => acc ++ [seedRepo repo]
      | some _ => updateRepo acc name (backfill_trc repo)
    updateRepo acc2 name (bump ct count)

/-- `process_list(items, contrib_type)` from `fetch_contributor_stats`. -/
def process_list (username : String) (ct : ContribType) (acc : List RawRepo)
    (items : List ContribItem) : List RawRepo :=
  items.foldl (process_item username ct) acc

/-- The four `process_list` calls of one successfully fetched year, in
source order: commits, prs, issues, reviews. -/
def process_collection (username : String) (acc : List RawRepo) (c : Collection) :
    List RawRepo :=
  process_list username .reviews
    (process_list username .issues
      (process_list username .prs
        (process_list username .commits acc c.commitContributionsByRepository)
        c.pullRequestContributionsByRepository)
      c.issueContributionsByRepository)
    c.pullRequestReviewContributionsByRepository

/-- The `try/except` body of one iteration of the year loop.  GraphQL
`errors`, a missing user and a missing collection all `continue`; a raised
`RequestException` would `continue` too, but `graphql_query` only ever
raises `APIError`, which the `except requests.exceptions.RequestException`
clause does not match, so it propagates. -/
def year_step (username : String) (acc : List RawRepo)
    (transport : Except String ContribPayload) : Except PyErr (List RawRepo) :=
  match graphql_query transport with
  | .error e => if e.isRequestException then .ok acc else .error e
  | .ok (.errors _) => .ok acc
  | .ok .noUser => .ok acc
  | .ok .noCollection => .ok acc
  | .ok (.ok c) => .ok (process_collection username acc c)

/-- The `for year in target_years` loop: fold the per-year steps, stopping
at the first uncaught exception. -/
def run_years (username : String) (acc : List RawRepo) :
    List (Except String ContribPayload) → Except PyErr (List RawRepo)
  | [] => .ok acc
  | t :: rest =>
    match year_step username acc t with
    | .error e => .error e
    | .ok acc2 => run_years username acc2 rest

/-- `ContribFetchConfig` from core/config.py (token omitted: the embedding
passes transport outcomes directly). -/
structure ContribFetchConfig where
  username : String
  token : String
  limit : Nat
  exclude_repo : List String
deriving DecidableEq, Repr

/-- Lines 350–361 of fetcher.py: resolve the contribution years.  GraphQL
`errors` and a missing user raise `FetchError`; the dead
`except requests.exceptions.RequestException` clause would wrap a
`RequestException` into `FetchError`, but `graphql_query` raises `APIError`
instead, which passes through. -/
def resolve_years (username : String) (transport : Except String YearsPayload) :
    Except PyErr (List Int) :=
  match graphql_query transport with
  | .error e =>
    if e.isRequestException then
      .error (.fetchError ("Failed to fetch contribution years: " ++ e.msg))
    else .error e
  | .ok (.errors m) => .error (.fetchError ("GraphQL error: " ++ m))
  | .ok .noUser => .error (.fetchError ("User " ++ username ++ " not found"))
  | .ok (.years ys) => .ok ys

/-- `sorted(years, reverse=True)[:5]`: the at most 5 most recent years,
descending (a stable sort, as Python's is). -/
def target_years (years : List Int) : List Int :=
  (years.insertionSort (fun a b => b ≤ a)).take 5

/-- A ranked accumulator record (`repo_data` after `rank_level` is set). -/
def add_rank (r : RawRepo) : RawRepo × String :=
  (r, calculate_repo_rank r.stars r.total_repo_commits)

/-- `final_repos_data` after ranking and exclusion filtering. -/
def candidate_repos (exclude : List String) (acc : List RawRepo) :
    List (RawRepo × String) :=
  (acc.map add_rank).filter (fun p => ¬ is_repo_excluded p.1.name exclude)

/-- The descending-stars ordering used by
`final_repos_data.sort(key=lambda r: r["stars"], reverse=True)`. -/
def starsGE (a b : RawRepo × String) : Prop := b.1.stars ≤ a.1.stars

instance : DecidableRel starsGE := fun a b => Int.decLe b.1.stars a.1.stars

/-- `final_repos_data.sort(key=lambda r: r["stars"], reverse=True)`:
a stable sort by star count descending. -/
def sort_repos (l : List (RawRepo × String)) : List (RawRepo × String) :=
  l.insertionSort starsGE

/-- One finalized output record (`ContributorRepo` TypedDict). -/
structure ContributorRepo where
  name : String
  stars : Int
  commits : Int
  prs : Int
  issues : Int
  reviews : Int
  rank_level : String
  avatar_b64 : Option String
deriving DecidableEq, Repr

/-- Projection of a ranked record into the output shape, consulting the
avatar collaborator (`fetch_image` + base64, modelled as one oracle that
returns `none` on any failure) only for non-empty avatar URLs. -/
def to_contributor_repo (fetch_avatar : String → Option String)
    (p : RawRepo × String) : ContributorRepo :=
  { name := p.1.name, stars := p.1.stars, commits := p.1.commits, prs := p.1.prs,
    issues := p.1.issues, reviews := p.1.reviews, rank_level := p.2,
    avatar_b64 := if p.1.avatar_url = "" then none else fetch_avatar p.1.avatar_url }

/-- The tail of `fetch_contributor_stats`: rank, filter, sort, limit,
attach avatars. -/
def finalize (cfg : ContribFetchConfig) (fetch_avatar : String → Option String)
    (acc : List RawRepo) : List ContributorRepo :=
  ((sort_repos (candidate_repos cfg.exclude_repo acc)).take cfg.limit).map
    (to_contributor_repo fetch_avatar)

/-- `fetch_contributor_stats` end to end.  `years_transport` is the outcome
of the `userYears` request; `contrib_transport y` the outcome of the
per-year request for year `y`; `fetch_avatar` the avatar collaborator. -/
def fetch_contributor_stats (cfg : ContribFetchConfig)
    (years_transport : Except String YearsPayload)
    (contrib_transport : Int → Except String ContribPayload)
    (fetch_avatar : String → Option String) : Except PyErr (List ContributorRepo) :=
  match resolve_years cfg.username years_transport with
  | .error e => .error e
  | .ok years =>
    match run_years cfg.username [] ((target_years years).map contrib_transport) with
    | .error e => .error e
    | .ok acc => .ok (finalize cfg fetch_avatar acc)

/- ===================== derived notions used by the statements ===================== -/

/-- An entry that survives the three drop-filters of `process_list`:
non-zero contribution count, public repository, owner different from the
queried account (case-insensitively). -/
def goodItem (username : String) (it : ContribItem) : Prop :=
  it.count ≠ 0 ∧ it.repository.isPrivate = false ∧
    lowerStr it.repository.ownerLogin ≠ lowerStr username

instance (username : String) (it : ContribItem) : Decidable (goodItem username it) :=
  inferInstanceAs (Decidable (_ ∧ _ ∧ _))

/-- All contribution-kind entries of one year's collection. -/
def allItems (c : Collection) : List ContribItem :=
  c.commitContributionsByRepository ++ c.pullRequestContributionsByRepository
    ++ c.issueContributionsByRepository ++ c.pullRequestReviewContributionsByRepository

/-- The spec's wording of the repository base tier, for the refinement
statement: strict star thresholds `>10000→S`, `>1000→A`, `>100→B`,
`>10→C`, else `D`. -/
def spec_base_tier (stars : Int) : String :=
  if stars > 10000 then "S"
  else if stars > 1000 then "A"
  else if stars > 100 then "B"
  else if stars > 10 then "C"
  else "D"

/-- The spec's wording of the repository rank modifier: `>5000→"+"`,
`0 < totalRepoCommits < 100→"-"`, otherwise none. -/
def spec_commit_modifier (total_repo_commits : Int) : String :=
  if total_repo_commits > 5000 then "+"
  else if 0 < total_repo_commits ∧ total_repo_commits < 100 then "-"
  else ""

/- ===================== helper lemmas ===================== -/

lemma bump_name (ct : ContribType) (k : Int) (r : RawRepo) : (bump ct k r).name = r.name := by
  cases ct <;> rfl

lemma backfill_trc_name (repo : RepoNode) (r : RawRepo) :
    (backfill_trc repo r).name = r.name := by
  unfold backfill_trc
  by_cases h : r.total_repo_commits = 0 <;> simp [h]
  cases repo.history <;> rfl

lemma lookup_updateRepo (acc : List RawRepo) (n : String) (f : RawRepo → RawRepo)
    (hf : ∀ r, (f r).name = r.name) :
    lookupRepo (updateRepo acc n f) n = (lookupRepo acc n).map f := by
  induction acc with
  | nil => rfl
  | cons r t ih =>
    by_cases h : r.name = n
    · simp [updateRepo, lookupRepo, h, hf r]
    · simp [updateRepo, lookupRepo, h, ih]

lemma names_updateRepo (acc : List RawRepo) (n : String) (f : RawRepo → RawRepo)
    (hf : ∀ r, (f r).name = r.name) :
    (updateRepo acc n f).map RawRepo.name = acc.map RawRepo.name := by
  induction acc with
  | nil => rfl
  | cons r t ih =>
    by_cases h : r.name = n
    · simp [updateRepo, h, hf r, ih]
    · simp [updateRepo, h, ih]

lemma lookupRepo_append (a b : List RawRepo) (n : String) :
    lookupRepo (a ++ b) n = (lookupRepo a n).orElse (fun _ => lookupRepo b n) := by
  induction a with
  | nil => rfl
  | cons r t ih =>
    by_cases h : r.name = n <;> simp [lookupRepo, h, ih]

lemma process_item_dropped (u : String) (ct : ContribType) (acc : List RawRepo)
    (it : ContribItem)
    (h : it.count = 0 ∨ it.repository.isPrivate = true ∨
      lowerStr it.repository.ownerLogin = lowerStr u) :
    process_item u ct acc it = acc := by
  rcases h with h | h | h <;> simp [process_item, h]

lemma process_item_new (u : String) (ct : ContribType) (acc : List RawRepo)
    (it : ContribItem) (h1 : it.count ≠ 0) (h2 : it.repository.isPrivate = false)
    (h3 : lowerStr it.repository.ownerLogin ≠ lowerStr u)
    (h4 : lookupRepo acc it.repository.nameWithOwner = none) :
    process_item u ct acc it
      = updateRepo (acc ++ [seedRepo it.repository]) it.repository.nameWithOwner
          (bump ct it.count) := by
  simp [process_item, h1, h2, h3, h4]

lemma process_item_existing (u : String) (ct : ContribType) (acc : List RawRepo)
    (it : ContribItem) (r : RawRepo) (h1 : it.count ≠ 0)
    (h2 : it.repository.isPrivate = false)
    (h3 : lowerStr it.repository.ownerLogin ≠ lowerStr u)
    (h4 : lookupRepo acc it.repository.nameWithOwner = some r) :
    process_item u ct acc it
      = updateRepo (updateRepo acc it.repository.nameWithOwner (backfill_trc it.repository))
          it.repository.nameWithOwner (bump ct it.count) := by
  simp [process_item, h1, h2, h3, h4]

lemma lookup_process_item_new (u : String) (ct : ContribType) (acc : List RawRepo)
    (it : ContribItem) (h1 : it.count ≠ 0) (h2 : it.repository.isPrivate = false)
    (h3 : lowerStr it.repository.ownerLogin ≠ lowerStr u)
    (h4 : lookupRepo acc it.repository.nameWithOwner = none) :
    lookupRepo (process_item u ct acc it) it.repository.nameWithOwner
      = some (bump ct it.count (seedRepo it.repository)) := by
  rw [process_item_new u ct acc it h1 h2 h3 h4,
    lookup_updateRepo _ _ _ (bump_name ct it.count), lookupRepo_append, h4]
  simp [lookupRepo, seedRepo]

lemma lookup_process_item_existing (u : String) (ct : ContribType) (acc : List RawRepo)
    (it : ContribItem) (r : RawRepo) (h1 : it.count ≠ 0)
    (h2 : it.repository.isPrivate = false)
    (h3 : lowerStr it.repository.ownerLogin ≠ lowerStr u)
    (h4 : lookupRepo acc it.repository.nameWithOwner = some r) :
    lookupRepo (process_item u ct acc it) it.repository.nameWithOwner
      = some (bump ct it.count (backfill_trc it.repository r)) := by
  rw [process_item_existing u ct acc it r h1 h2 h3 h4,
    lookup_updateRepo _ _ _ (bump_name ct it.count),
    lookup_updateRepo _ _ _ (backfill_trc_name it.repository), h4]
  rfl

lemma names_process_item (u : String) (ct : ContribType) (acc : List RawRepo)
    (it : ContribItem) :
    (process_item u ct acc it).map RawRepo.name = acc.map RawRepo.name ∨
      (goodItem u it ∧ (process_item u ct acc it).map RawRepo.name
        = acc.map RawRepo.name ++ [it.repository.nameWithOwner]) := by
  by_cases h1 : it.count = 0
  · exact Or.inl (by rw [process_item_dropped u ct acc it (Or.inl h1)])
  by_cases h2 : it.repository.isPrivate = true
  · exact Or.inl (by rw [process_item_dropped u ct acc it (Or.inr (Or.inl h2))])
  by_cases h3 : lowerStr it.repository.ownerLogin = lowerStr u
  · exact Or.inl (by rw [process_item_dropped u ct acc it (Or.inr (Or.inr h3))])
  have h2f : it.repository.isPrivate = false := by
    cases hb : it.repository.isPrivate
    · rfl
    · exact absurd hb h2
  cases h4 : lookupRepo acc it.repository.nameWithOwner with
  | none =>
    refine Or.inr ⟨⟨h1, h2f, h3⟩, ?_⟩
    rw [process_item_new u ct acc it h1 h2f h3 h4,
      names_updateRepo _ _ _ (bump_name ct it.count)]
    simp [seedRepo]
  | some r =>
    refine Or.inl ?_
    rw [process_item_existing u ct acc it r h1 h2f h3 h4,
      names_updateRepo _ _ _ (bump_name ct it.count),
      names_updateRepo _ _ _ (backfill_trc_name it.repository)]

lemma names_process_list (u : String) (ct : ContribType) (items : List ContribItem) :
    ∀ (acc : List RawRepo) (n : String),
      n ∈ (process_list u ct acc items).map RawRepo.name →
      n ∈ acc.map RawRepo.name ∨
        ∃ it ∈ items, goodItem u it ∧ it.repository.nameWithOwner = n := by
  induction items with
  | nil => intro acc n h; exact Or.inl h
  | cons it rest ih =>
    intro acc n h
    have h' := ih (process_item u ct acc it) n h
    rcases h' with h' | ⟨it', hmem, hgood, hname⟩
    · rcases names_process_item u ct acc it with heq | ⟨hgood, heq⟩
      · rw [heq] at h'; exact Or.inl h'
      · rw [heq] at h'
        rcases List.mem_append.mp h' with h'' | h''
        · exact Or.inl h''
        · refine Or.inr ⟨it, List.mem_cons_self it rest, hgood, ?_⟩
          have := List.mem_singleton.mp h''
          exact this.symm
    · exact Or.inr ⟨it', List.mem_cons_of_mem it hmem, hgood, hname⟩

lemma names_process_collection (u : String) (acc : List RawRepo) (c : Collection)
    (n : String) (h : n ∈ (process_collection u acc c).map RawRepo.name) :
    n ∈ acc.map RawRepo.name ∨
      ∃ it ∈ allItems c, goodItem u it ∧ it.repository.nameWithOwner = n := by
  unfold process_collection at h
  rcases names_process_list u .reviews _ _ _ h with h | ⟨it, hm, hg, hn⟩
  · rcases names_process_list u .issues _ _ _ h with h | ⟨it, hm, hg, hn⟩
    · rcases names_process_list u .prs _ _ _ h with h | ⟨it, hm, hg, hn⟩
      · rcases names_process_list u .commits _ _ _ h with h | ⟨it, hm, hg, hn⟩
        · exact Or.inl h
        · exact Or.inr ⟨it, by simp [allItems, hm], hg, hn⟩
      · exact Or.inr ⟨it, by simp [allItems, hm], hg, hn⟩
    · exact Or.inr ⟨it, by simp [allItems, hm], hg, hn⟩
  · exact Or.inr ⟨it, by simp [allItems, hm], hg, hn⟩

lemma exponential_cdf_mono {a b : ℝ} (h : a ≤ b) : exponential_cdf a ≤ exponential_cdf b := by
  unfold exponential_cdf
  have h2 : (2:ℝ) ^ (-b) ≤ (2:ℝ) ^ (-a) :=
    (Real.rpow_le_rpow_left_iff (by norm_num)).mpr (by linarith)
  linarith

lemma log_normal_cdf_mono {a b : ℝ} (ha : 0 ≤ a) (h : a ≤ b) :
    log_normal_cdf a ≤ log_normal_cdf b := by
  unfold log_normal_cdf
  rw [div_le_div_iff₀ (by linarith) (by linarith)]
  nlinarith

lemma user_rank_score_mono (ac : Bool) {c c' p p' i i' r r' s s' f f' : ℕ}
    (hc : c ≤ c') (hp : p ≤ p') (hi : i ≤ i') (hr : r ≤ r') (hs : s ≤ s')
    (hf : f ≤ f') :
    user_rank_score c p i r s f ac ≤ user_rank_score c' p' i' r' s' f' ac := by
  simp only [user_rank_score]
  have hM : (0:ℝ) < (if ac = true then 1000 else 250) := by cases ac <;> norm_num
  have e1 := exponential_cdf_mono
    ((div_le_div_iff_of_pos_right hM).mpr ((Nat.cast_le (α := ℝ)).mpr hc))
  have e2 := exponential_cdf_mono
    ((div_le_div_iff_of_pos_right (by norm_num : (0:ℝ) < 50)).mpr
      ((Nat.cast_le (α := ℝ)).mpr hp))
  have e3 := exponential_cdf_mono
    ((div_le_div_iff_of_pos_right (by norm_num : (0:ℝ) < 25)).mpr
      ((Nat.cast_le (α := ℝ)).mpr hi))
  have e4 := exponential_cdf_mono
    ((div_le_div_iff_of_pos_right (by norm_num : (0:ℝ) < 2)).mpr
      ((Nat.cast_le (α := ℝ)).mpr hr))
  have l1 := log_normal_cdf_mono (by positivity)
    ((div_le_div_iff_of_pos_right (by norm_num : (0:ℝ) < 50)).mpr
      ((Nat.cast_le (α := ℝ)).mpr hs))
  have l2 := log_normal_cdf_mono (by positivity)
    ((div_le_div_iff_of_pos_right (by norm_num : (0:ℝ) < 10)).mpr
      ((Nat.cast_le (α := ℝ)).mpr hf))
  linarith

lemma user_rank_score_zero : user_rank_score 0 0 0 0 0 0 false = 0 := by
  simp [user_rank_score, exponential_cdf, log_normal_cdf, Real.rpow_zero]

lemma sorted_target_years (ys : List Int) :
    List.Sorted (fun a b : Int => b ≤ a) (target_years ys) := by
  haveI : IsTotal Int (fun a b => b ≤ a) := ⟨fun a b => le_total b a⟩
  haveI : IsTrans Int (fun a b => b ≤ a) := ⟨fun _ _ _ hab hbc => le_trans hbc hab⟩
  exact List.Pairwise.sublist (List.take_sublist 5 _) (List.sorted_insertionSort _ ys)

lemma target_years_subset (ys : List Int) {y : Int} (h : y ∈ target_years ys) : y ∈ ys :=
  (List.perm_insertionSort _ ys).subset (List.take_subset 5 _ h)

lemma target_years_most_recent (ys : List Int) (y z : Int) (hy : y ∈ ys)
    (hyn : y ∉ target_years ys) (hz : z ∈ target_years ys) : y ≤ z := by
  haveI : IsTotal Int (fun a b => b ≤ a) := ⟨fun a b => le_total b a⟩
  haveI : IsTrans Int (fun a b => b ≤ a) := ⟨fun _ _ _ hab hbc => le_trans hbc hab⟩
  have hsort : List.Pairwise (fun a b : Int => b ≤ a)
      (ys.insertionSort (fun a b => b ≤ a)) := List.sorted_insertionSort _ ys
  have hyL : y ∈ ys.insertionSort (fun a b => b ≤ a) :=
    ((List.perm_insertionSort _ ys).mem_iff).mpr hy
  have hsplit := List.take_append_drop 5 (ys.insertionSort (fun a b => b ≤ a))
  have hpw := List.pairwise_append.mp (by rw [hsplit]; exact hsort)
  have hydrop : y ∈ List.drop 5 (ys.insertionSort (fun a b => b ≤ a)) := by
    rw [← hsplit] at hyL
    rcases List.mem_append.mp hyL with h | h
    · exact absurd h hyn
    · exact h
  exact hpw.2.2 z hz y hydrop

instance : IsTotal (RawRepo × String) starsGE := ⟨fun a b => le_total b.1.stars a.1.stars⟩

instance : IsTrans (RawRepo × String) starsGE := ⟨fun _ _ _ h1 h2 => le_trans h2 h1⟩

lemma sorted_finalize (cfg : ContribFetchConfig) (av : String → Option String)
    (acc : List RawRepo) :
    List.Sorted (fun a b : ContributorRepo => b.stars ≤ a.stars) (finalize cfg av acc) := by
  unfold finalize
  apply List.Pairwise.map
  · intro a b hab; exact hab
  · exact List.Pairwise.sublist (List.take_sublist _ _)
      (List.sorted_insertionSort starsGE _)

lemma length_finalize (cfg : ContribFetchConfig) (av : String → Option String)
    (acc : List RawRepo) :
    (finalize cfg av acc).length
      = min cfg.limit (candidate_repos cfg.exclude_repo acc).length := by
  unfold finalize sort_repos
  rw [List.length_map, List.length_take, List.length_insertionSort]

lemma exclude_loop_any (rn rno : List Char) (pats : List String) :
    exclude_loop rn rno pats
      = pats.any (fun p =>
          if (lowerL p.data).contains '/' then fnmatchL rn (lowerL p.data)
          else fnmatchL rno (lowerL p.data)) := by
  induction pats with
  | nil => rfl
  | cons p rest ih =>
    simp only [exclude_loop, List.any_cons, ih]
    by_cases hc : (lowerL p.data).contains '/' = true
    · simp only [hc, if_true]
      by_cases hm : fnmatchL rn (lowerL p.data) = true <;> simp [hm]
    · simp only [hc, if_false, Bool.false_eq_true]
      by_cases hm : fnmatchL rno (lowerL p.data) = true <;> simp [hm]

/- ===================== claims ===================== -/

/-- C3: the spec claims `calculate_repo_rank` can never return `"D-"`;
counterexample: stars 0 and 50 total commits give base tier `D` and
modifier `-`. -/
theorem c3_counterexample_repo_rank_D_minus : calculate_repo_rank 0 50 = "D-" := by
  decide

/-- C3 (amended): `"D-"` is reachable — every input with at most 10 stars
and a commit total strictly between 0 and 100 yields `"D-"` — and `"D+"`
is reachable as the claim says. -/
theorem c3_repo_rank_D_minus_reachable :
    (∀ s c : Int, s ≤ 10 → 0 < c → c < 100 → calculate_repo_rank s c = "D-")
      ∧ calculate_repo_rank 0 6000 = "D+" := by
  constructor
  · intro s c hs hc1 hc2
    unfold calculate_repo_rank
    rw [if_neg (by omega), if_neg (by omega), if_neg (by omega), if_neg (by omega),
      if_neg (by omega), if_pos ⟨hc1, hc2⟩]
    rfl
  · decide

/-- C3 witness: the amended statement applied at stars 0, commits 50. -/
theorem c3_repo_rank_witness : calculate_repo_rank 0 50 = "D-" :=
  c3_repo_rank_D_minus_reachable.1 0 50 (by decide) (by decide) (by decide)

/-- C4: the base tier depends only on the star thresholds and the modifier
only on the commit total, exactly as the spec words them, and the six
boundary examples hold. -/
theorem c4_repo_rank_tier_and_modifier :
    (∀ s c : Int, calculate_repo_rank s c = spec_base_tier s ++ spec_commit_modifier c)
      ∧ calculate_repo_rank 10001 5001 = "S+"
      ∧ calculate_repo_rank 10001 1000 = "S"
      ∧ calculate_repo_rank 10001 50 = "S-"
      ∧ calculate_repo_rank 10000 6000 = "A+"
      ∧ calculate_repo_rank 0 6000 = "D+"
      ∧ calculate_repo_rank 10001 0 = "S" := by
  exact ⟨fun s c => rfl, by decide, by decide, by decide, by decide, by decide, by decide⟩

/-- C6: `is_repo_excluded` returns false on an empty pattern list, is true
iff some pattern matches, and behaves as the spec's examples require,
case-insensitively in both directions. -/
theorem c6_is_repo_excluded_spec :
    (∀ name : String, is_repo_excluded name [] = false)
      ∧ (∀ (name : String) (pats : List String),
          is_repo_excluded name pats = pats.any (fun p => pattern_matches name p))
      ∧ is_repo_excluded "stn1slv/awesome-cli-apps" ["awesome-cli-apps"] = true
      ∧ is_repo_excluded "owner/repo-abc" ["owner/repo-*"] = true
      ∧ is_repo_excluded "other/repo-abc" ["owner/repo-*"] = false
      ∧ is_repo_excluded "Stn1slv/Awesome-CLI-Apps" ["awesome-cli-apps"] = true
      ∧ is_repo_excluded "stn1slv/awesome-cli-apps" ["AWESOME-CLI-APPS"] = true := by
  refine ⟨fun _ => rfl, fun name pats => ?_, by decide, by decide, by decide, by decide,
    by decide⟩
  simp only [is_repo_excluded, pattern_matches]
  exact exclude_loop_any (lowerL name.data) (lastSegment (lowerL name.data)) pats

/-- C10: the self-repository drop-filter lower-cases both the entry's owner
login and the configured username, so a self-owned repository never enters
the accumulator regardless of letter case. -/
theorem c10_self_exclusion_case_insensitive :
    (∀ (u : String) (ct : ContribType) (acc : List RawRepo) (it : ContribItem),
        lowerStr it.repository.ownerLogin = lowerStr u → process_item u ct acc it = acc)
      ∧ process_item "Stn1slv" .commits []
          ⟨⟨"STN1SLV/repo", false, "STN1SLV", "av", 5, none⟩, 3⟩ = [] := by
  constructor
  · intro u ct acc it h
    exact process_item_dropped u ct acc it (Or.inr (Or.inr h))
  · decide

/-- C10 witness: the filter applied to a concrete entry whose owner login
differs from the username only in case. -/
theorem c10_self_exclusion_witness :
    process_item "UserA" .prs [⟨"k/e", 1, "a", 0, 0, 0, 0, 0⟩]
        ⟨⟨"usera/x", false, "USERA", "av", 1, none⟩, 2⟩
      = [⟨"k/e", 1, "a", 0, 0, 0, 0, 0⟩] :=
  c10_self_exclusion_case_insensitive.1 "UserA" .prs _ _ (by decide)

/-- C1: the per-year loop's graceful degradation is broken for transport
errors.  `GitHubClient.graphql_query` wraps every raised
`requests.exceptions.RequestException` into `APIError`, so the loop's
`except requests.exceptions.RequestException` clause never fires: a
transport error on one year aborts the whole run with `APIError` instead of
skipping the year (first conjunct evaluates the pipeline at exactly the
claim's two-year scenario).  GraphQL-payload errors and malformed/empty
payloads are skipped as claimed, and a payload-error year leaves the run
equal to the remaining years alone. -/
theorem c1_transport_error_aborts_run :
    fetch_contributor_stats ⟨"user", "token", 5, []⟩
        (.ok (.years [2024, 2023]))
        (fun y => if y = 2024 then .error "boom"
          else .ok (.ok ⟨[⟨⟨"owner/repo", false, "owner", "url", 100, none⟩, 1⟩],
            [], [], []⟩))
        (fun _ => none)
      = .error (.apiError "GitHub API request failed: boom")
    ∧ fetch_contributor_stats ⟨"user", "token", 5, []⟩
        (.ok (.years [2024, 2023]))
        (fun y => if y = 2024 then .ok (.errors "Some error")
          else .ok (.ok ⟨[⟨⟨"owner/repo", false, "owner", "url", 100, none⟩, 1⟩],
            [], [], []⟩))
        (fun _ => none)
      = .ok [⟨"owner/repo", 100, 1, 0, 0, 0, "C", none⟩]
    ∧ (∀ (u : String) (acc : List RawRepo) (m : String),
        year_step u acc (.ok (.errors m)) = .ok acc)
    ∧ (∀ (u : String) (acc : List RawRepo), year_step u acc (.ok .noUser) = .ok acc)
    ∧ (∀ (u : String) (acc : List RawRepo), year_step u acc (.ok .noCollection) = .ok acc)
    ∧ (∀ (u : String) (acc : List RawRepo) (m : String)
        (t : Except String ContribPayload),
        run_years u acc [.ok (.errors m), t] = run_years u acc [t])
    ∧ (∀ (u : String) (acc : List RawRepo) (m : String),
        year_step u acc (.error m) = .error (.apiError ("GitHub API request failed: " ++ m))) := by
  exact ⟨by decide, by decide, fun u acc m => rfl, fun u acc => rfl, fun u acc => rfl,
    fun u acc m t => rfl, fun u acc m => rfl⟩

/-- C2: the claim that a missing account raises a `NotFoundError` distinct
from `FetchError` is false: at a concrete not-found input the
year-resolution step raises `FetchError` itself. -/
theorem c2_counterexample_not_found_raises_fetch_error :
    resolve_years "user" (.ok .noUser) = .error (.fetchError "User user not found")
      ∧ (PyErr.fetchError "User user not found").isNotFoundError = false
      ∧ (PyErr.fetchError "User user not found").isFetchError = true := by
  exact ⟨by decide, rfl, rfl⟩

/-- C2 (amended): when the account does not exist, year resolution raises
`FetchError` (there is no NotFoundError anywhere in the code); when the
transport cannot complete the request, the client's `APIError` propagates
unchanged (the dead `except requests.exceptions.RequestException` wrapper
never fires, so the error is `APIError`, not its subtype `FetchError`);
both failures surface immediately from the whole fetch with no partial
result. -/
theorem c2_year_resolution_failure_modes :
    (∀ u : String, resolve_years u (.ok .noUser)
        = .error (.fetchError ("User " ++ u ++ " not found")))
      ∧ (∀ u m : String, resolve_years u (.error m)
        = .error (.apiError ("GitHub API request failed: " ++ m)))
      ∧ (∀ m : String, (PyErr.apiError m).isFetchError = false
          ∧ (PyErr.apiError m).isAPIError = true)
      ∧ (∀ (cfg : ContribFetchConfig) (ct : Int → Except String ContribPayload)
          (av : String → Option String),
          fetch_contributor_stats cfg (.ok .noUser) ct av
            = .error (.fetchError ("User " ++ cfg.username ++ " not found")))
      ∧ (∀ (cfg : ContribFetchConfig) (m : String)
          (ct : Int → Except String ContribPayload) (av : String → Option String),
          fetch_contributor_stats cfg (.error m) ct av
            = .error (.apiError ("GitHub API request failed: " ++ m))) := by
  exact ⟨fun u => rfl, fun u m => rfl, fun m => ⟨rfl, rfl⟩, fun cfg ct av => rfl,
    fun cfg m ct av => rfl⟩

/-- C7: a contribution-kind entry with zero count, a private repository, or
a self-owned repository leaves the accumulator untouched, and consequently
every record in the accumulator after a year's merge either was already
there or stems from an entry that passed all three drop-filters. -/
theorem c7_drop_filters_guard_accumulator :
    (∀ (u : String) (ct : ContribType) (acc : List RawRepo) (it : ContribItem),
        (it.count = 0 ∨ it.repository.isPrivate = true ∨
          lowerStr it.repository.ownerLogin = lowerStr u) →
        process_item u ct acc it = acc)
      ∧ (∀ (u : String) (acc : List RawRepo) (c : Collection) (r : RawRepo),
          r ∈ process_collection u acc c →
          r.name ∈ acc.map RawRepo.name ∨
            ∃ it ∈ allItems c, goodItem u it ∧ it.repository.nameWithOwner = r.name) := by
  constructor
  · exact process_item_dropped
  · intro u acc c r hr
    exact names_process_collection u acc c r.name (List.mem_map_of_mem RawRepo.name hr)

/-- C7 witness: a private-repository entry and a zero-count entry leave a
concrete accumulator unchanged. -/
theorem c7_drop_filters_witness :
    process_item "u" .commits [] ⟨⟨"o/r", true, "o", "av", 5, none⟩, 3⟩ = []
      ∧ process_item "u" .issues [⟨"k/e", 1, "a", 0, 0, 0, 0, 0⟩]
          ⟨⟨"o/r2", false, "o", "av", 5, none⟩, 0⟩ = [⟨"k/e", 1, "a", 0, 0, 0, 0, 0⟩] :=
  ⟨c7_drop_filters_guard_accumulator.1 "u" .commits [] _ (Or.inr (Or.inl (by decide))),
    c7_drop_filters_guard_accumulator.1 "u" .issues _ _ (Or.inl (by decide))⟩

/-- C8: `total_repo_commits` is seeded from the first entry that supplies
commit-history metadata, backfilled only while still 0, never overwritten
once non-zero; a surviving entry bumps exactly its own kind's counter; and
a repository seen under commits and pull requests in the same year merges
into a single record whose counters reflect only their own kinds. -/
theorem c8_merge_invariant_total_repo_commits :
    (∀ (u : String) (ct : ContribType) (acc : List RawRepo) (it : ContribItem),
        it.count ≠ 0 → it.repository.isPrivate = false →
        lowerStr it.repository.ownerLogin ≠ lowerStr u →
        lookupRepo acc it.repository.nameWithOwner = none →
        lookupRepo (process_item u ct acc it) it.repository.nameWithOwner
          = some (bump ct it.count (seedRepo it.repository)))
      ∧ (∀ (u : String) (ct : ContribType) (acc : List RawRepo) (it : ContribItem)
          (r : RawRepo),
          it.count ≠ 0 → it.repository.isPrivate = false →
          lowerStr it.repository.ownerLogin ≠ lowerStr u →
          lookupRepo acc it.repository.nameWithOwner = some r →
          lookupRepo (process_item u ct acc it) it.repository.nameWithOwner
            = some (bump ct it.count (backfill_trc it.repository r)))
      ∧ (∀ (u : String) (ct : ContribType) (acc : List RawRepo) (it : ContribItem)
          (r r' : RawRepo),
          lookupRepo acc it.repository.nameWithOwner = some r →
          r.total_repo_commits ≠ 0 →
          lookupRepo (process_item u ct acc it) it.repository.nameWithOwner = some r' →
          r'.total_repo_commits = r.total_repo_commits)
      ∧ (∀ (ct : ContribType) (k : Int) (r : RawRepo),
          (bump ct k r).commits = r.commits + (if ct = .commits then k else 0)
            ∧ (bump ct k r).prs = r.prs + (if ct = .prs then k else 0)
            ∧ (bump ct k r).issues = r.issues + (if ct = .issues then k else 0)
            ∧ (bump ct k r).reviews = r.reviews + (if ct = .reviews then k else 0)
            ∧ (bump ct k r).total_repo_commits = r.total_repo_commits)
      ∧ process_collection "user" []
          ⟨[⟨⟨"o/r", false, "o", "av", 42, some 500⟩, 3⟩],
            [⟨⟨"o/r", false, "o", "av", 42, some 500⟩, 2⟩], [], []⟩
          = [⟨"o/r", 42, "av", 3, 2, 0, 0, 500⟩] := by
  refine ⟨lookup_process_item_new, lookup_process_item_existing, ?_, ?_, by decide⟩
  · intro u ct acc it r r' h4 htrc hafter
    by_cases h1 : it.count = 0
    · rw [process_item_dropped u ct acc it (Or.inl h1), h4] at hafter
      cases hafter; rfl
    by_cases h2 : it.repository.isPrivate = true
    · rw [process_item_dropped u ct acc it (Or.inr (Or.inl h2)), h4] at hafter
      cases hafter; rfl
    by_cases h3 : lowerStr it.repository.ownerLogin = lowerStr u
    · rw [process_item_dropped u ct acc it (Or.inr (Or.inr h3)), h4] at hafter
      cases hafter; rfl
    have h2f : it.repository.isPrivate = false := by
      cases hb : it.repository.isPrivate
      · rfl
      · exact absurd hb h2
    rw [lookup_process_item_existing u ct acc it r h1 h2f h3 h4] at hafter
    cases hafter
    have hbk : backfill_trc it.repository r = r := by
      unfold backfill_trc; rw [if_neg htrc]
    rw [show (bump ct it.count (backfill_trc it.repository r)).total_repo_commits
        = (backfill_trc it.repository r).total_repo_commits by cases ct <;> rfl, hbk]
  · intro ct k r
    cases ct <;> refine ⟨?_, ?_, ?_, ?_, ?_⟩ <;> simp [bump]

/-- C8 witness: the seeding statement applied to a new repository whose
payload carries a commit history, and the no-overwrite statement applied to
a record whose `total_repo_commits` is already non-zero. -/
theorem c8_merge_invariant_witness :
    lookupRepo (process_item "u" .commits [] ⟨⟨"o/r", false, "o", "av", 5, some 7⟩, 3⟩) "o/r"
        = some (bump .commits 3 (seedRepo ⟨"o/r", false, "o", "av", 5, some 7⟩))
      ∧ (⟨"o/r", 5, "av", 1, 0, 0, 0, 9⟩ : RawRepo).total_repo_commits
        = (⟨"o/r", 5, "av", 0, 0, 0, 0, 9⟩ : RawRepo).total_repo_commits :=
  ⟨c8_merge_invariant_total_repo_commits.1 "u" .commits [] _ (by decide) (by decide)
      (by decide) (by decide),
    c8_merge_invariant_total_repo_commits.2.2.1 "u" .commits
      [⟨"o/r", 5, "av", 0, 0, 0, 0, 9⟩] ⟨⟨"o/r", false, "o", "av", 5, some 7⟩, 1⟩
      ⟨"o/r", 5, "av", 0, 0, 0, 0, 9⟩ ⟨"o/r", 5, "av", 1, 0, 0, 0, 9⟩
      (by decide) (by decide) (by decide)⟩

/-- C9: the year iteration covers at most the 5 most recent contribution
years in descending order, and the output is the filtered candidate list
sorted by star count descending and truncated to the configured limit —
concretely, limit 3 over 10 qualifying repositories returns exactly the 3
top-starred records in descending star order. -/
theorem c9_sort_limit_and_year_cap :
    (∀ ys : List Int, (target_years ys).length ≤ 5)
      ∧ (∀ ys : List Int, List.Sorted (fun a b : Int => b ≤ a) (target_years ys))
      ∧ (∀ (ys : List Int) (y : Int), y ∈ target_years ys → y ∈ ys)
      ∧ (∀ (ys : List Int) (y z : Int), y ∈ ys → y ∉ target_years ys →
          z ∈ target_years ys → y ≤ z)
      ∧ (∀ (cfg : ContribFetchConfig) (av : String → Option String) (acc : List RawRepo),
          List.Sorted (fun a b : ContributorRepo => b.stars ≤ a.stars) (finalize cfg av acc))
      ∧ (∀ (cfg : ContribFetchConfig) (av : String → Option String) (acc : List RawRepo),
          (finalize cfg av acc).length
            = min cfg.limit (candidate_repos cfg.exclude_repo acc).length)
      ∧ ((finalize ⟨"u", "t", 3, []⟩ (fun _ => none)
          [⟨"a/r1", 10, "", 1, 0, 0, 0, 0⟩, ⟨"a/r2", 80, "", 1, 0, 0, 0, 0⟩,
           ⟨"a/r3", 30, "", 1, 0, 0, 0, 0⟩, ⟨"a/r4", 100, "", 1, 0, 0, 0, 0⟩,
           ⟨"a/r5", 50, "", 1, 0, 0, 0, 0⟩, ⟨"a/r6", 90, "", 1, 0, 0, 0, 0⟩,
           ⟨"a/r7", 20, "", 1, 0, 0, 0, 0⟩, ⟨"a/r8", 60, "", 1, 0, 0, 0, 0⟩,
           ⟨"a/r9", 40, "", 1, 0, 0, 0, 0⟩, ⟨"a/r10", 70, "", 1, 0, 0, 0, 0⟩]).map
            (fun r => (r.name, r.stars))
          = [("a/r4", 100), ("a/r6", 90), ("a/r2", 80)]) := by
  refine ⟨?_, sorted_target_years, fun ys y h => target_years_subset ys h,
    target_years_most_recent, sorted_finalize, length_finalize, by decide⟩
  intro ys
  unfold target_years
  exact List.length_take_le 5 (ys.insertionSort (fun a b => b ≤ a))

/-- C9 witness: with six contribution years only the five most recent are
kept, and a year that was dropped is no more recent than any kept year. -/
theorem c9_sort_limit_witness : (1 : Int) ≤ 6 :=
  c9_sort_limit_and_year_cap.2.2.2.1 [1, 2, 3, 4, 5, 6] 1 6 (by decide) (by decide)
    (by decide)

/-- C5: with the weight and median constants fixed, the percentile of
`calculate_user_rank` never increases when any single metric increases,
and the all-zero input yields percentile exactly 100 with level `"C"`. -/
theorem c5_user_rank_monotone_and_zero :
    (∀ (ac : Bool) (c c' p i r s f : ℕ), c ≤ c' →
        (calculate_user_rank c' p i r s f ac).percentile
          ≤ (calculate_user_rank c p i r s f ac).percentile)
      ∧ (∀ (ac : Bool) (c p p' i r s f : ℕ), p ≤ p' →
        (calculate_user_rank c p' i r s f ac).percentile
          ≤ (calculate_user_rank c p i r s f ac).percentile)
      ∧ (∀ (ac : Bool) (c p i i' r s f : ℕ), i ≤ i' →
        (calculate_user_rank c p i' r s f ac).percentile
          ≤ (calculate_user_rank c p i r s f ac).percentile)
      ∧ (∀ (ac : Bool) (c p i r r' s f : ℕ), r ≤ r' →
        (calculate_user_rank c p i r' s f ac).percentile
          ≤ (calculate_user_rank c p i r s f ac).percentile)
      ∧ (∀ (ac : Bool) (c p i r s s' f : ℕ), s ≤ s' →
        (calculate_user_rank c p i r s' f ac).percentile
          ≤ (calculate_user_rank c p i r s f ac).percentile)
      ∧ (∀ (ac : Bool) (c p i r s f f' : ℕ), f ≤ f' →
        (calculate_user_rank c p i r s f' ac).percentile
          ≤ (calculate_user_rank c p i r s f ac).percentile)
      ∧ (calculate_user_rank 0 0 0 0 0 0 false).percentile = 100
      ∧ (calculate_user_rank 0 0 0 0 0 0 false).level = "C" := by
  refine ⟨?_, ?_, ?_, ?_, ?_, ?_, ?_, ?_⟩
  · intro ac c c' p i r s f h
    have := user_rank_score_mono ac h (le_refl p) (le_refl i) (le_refl r) (le_refl s)
      (le_refl f)
    simp only [calculate_user_rank]
    linarith
  · intro ac c p p' i r s f h
    have := user_rank_score_mono ac (le_refl c) h (le_refl i) (le_refl r) (le_refl s)
      (le_refl f)
    simp only [calculate_user_rank]
    linarith
  · intro ac c p i i' r s f h
    have := user_rank_score_mono ac (le_refl c) (le_refl p) h (le_refl r) (le_refl s)
      (le_refl f)
    simp only [calculate_user_rank]
    linarith
  · intro ac c p i r r' s f h
    have := user_rank_score_mono ac (le_refl c) (le_refl p) (le_refl i) h (le_refl s)
      (le_refl f)
    simp only [calculate_user_rank]
    linarith
  · intro ac c p i r s s' f h
    have := user_rank_score_mono ac (le_refl c) (le_refl p) (le_refl i) (le_refl r) h
      (le_refl f)
    simp only [calculate_user_rank]
    linarith
  · intro ac c p i r s f f' h
    have := user_rank_score_mono ac (le_refl c) (le_refl p) (le_refl i) (le_refl r)
      (le_refl s) h
    simp only [calculate_user_rank]
    linarith
  · simp [calculate_user_rank, user_rank_score_zero]
  · simp only [calculate_user_rank, user_rank_score_zero]
    norm_num [RANK_LEVELS, find_level]

/-- C5 witness: one extra commit from the all-zero profile does not
increase the percentile. -/
theorem c5_user_rank_witness :
    (calculate_user_rank 1 0 0 0 0 0 false).percentile
      ≤ (calculate_user_rank 0 0 0 0 0 0 false).percentile :=
  c5_user_rank_monotone_and_zero.1 false 0 1 0 0 0 0 0 (by decide)
